import Mathlib

/-!
Shallow embedding of the `zcash_script` build script (`src/build.rs`).

The build script is an effectful program; we embed it as pure functions
that thread an explicit trace of observable build-system actions
(`cargo:rerun-if-changed` lines, environment reads of the platform
descriptors, trial compilations, warnings, file writes/copies and
toolchain invocations) and return `Except String` where the Rust code
can panic or return an error (both abort the build; the error carries
the reported message).  Compiler plans (`cc::Build` values) are embedded
as the `CcBuild` record of accumulated flags, defines, includes and
files.  Ambient inputs of the script (environment variables, the
`external-secp` feature, the outcome of the uint128 trial compilation,
whether the detected compiler is MSVC-like, and the success of the
external binding/bridge generators) are gathered in `BuildInput`.
Directory creation calls that carry no build-system signal are recorded
as `createDirAll` events.
-/

namespace ZcashBuild

/-- Embedding of a `cc::Build` value: the compilation plan accumulated by
the build script (C++ mode, `.flag` flags, `.flag_if_supported` flags,
`.define` preprocessor definitions with optional value, include paths and
source files, in insertion order). -/
structure CcBuild where
  cpp : Bool := false
  flags : List String := []
  flagsIfSupported : List String := []
  defines : List (String × Option String) := []
  includes : List String := []
  files : List String := []
deriving DecidableEq, Repr

/-- The empty plan, as made by `cc::Build::new()`. -/
def ccNew : CcBuild := {}

/-- Observable actions of the build script. -/
inductive Event where
  /-- A `cargo:rerun-if-changed=path` line. -/
  | rerunIfChanged (path : String)
  /-- A read of an ambient platform descriptor (environment variable). -/
  | envRead (var : String)
  /-- The trial compilation of `depend/check_uint128_t.c`. -/
  | trialCompile
  /-- A `cargo:warning=msg` line. -/
  | warning (msg : String)
  /-- A `fs::create_dir_all` call. -/
  | createDirAll (path : String)
  /-- A file written into the build-output tree. -/
  | writeFile (path : String)
  /-- A `fs::copy` from `src` to `dst`. -/
  | copyFile (src dst : String)
  /-- A toolchain invocation: `plan.compile(archive)`. -/
  | compile (plan : CcBuild) (archive : String)
deriving DecidableEq, Repr

/-- The trace of observable actions of one build-script run. -/
abbrev Trace := List Event

/-- Ambient inputs of the build script.  `cxxGenErr f` is `some msg` when
`cxx_gen::generate_header_and_cc` fails on bridge module `f` with error
message `msg`, and `none` when it succeeds.  `writeBindingsErr` likewise
carries the I/O error of `bindings.write_to_file` when that fails. -/
structure BuildInput where
  outDir : Option String
  target : Option String
  targetEndian : Option String
  targetPointerWidth : Option String
  externalSecp : Bool
  trialCompileOk : Bool
  isLikeMsvc : Bool
  bindgenOk : Bool
  writeBindingsErr : Option String
  cxxGenErr : String → Option String

/-- `charsStarts pat s` holds when the character list `pat` is a prefix of
`s` (the semantics of Rust `str::starts_with`). -/
def charsStarts : List Char → List Char → Bool
  | [], _ => true
  | _ :: _, [] => false
  | c :: cs, d :: ds => c == d && charsStarts cs ds

/-- `strStarts s pat`: `s` starts with `pat` (Rust `s.starts_with(pat)`). -/
def strStarts (s pat : String) : Bool := charsStarts pat.data s.data

/-- `charsHas pat s` holds when `pat` occurs contiguously inside `s`
(the semantics of Rust `str::contains`). -/
def charsHas (pat : List Char) : List Char → Bool
  | [] => charsStarts pat []
  | c :: cs => charsStarts pat (c :: cs) || charsHas pat cs

/-- `strHas s pat`: `s` contains `pat` (Rust `s.contains(pat)`). -/
def strHas (s pat : String) : Bool := charsHas pat.data s.data

/-- Embedding of `language_std` (src/build.rs:319-329): sets C++ mode from
whether the standard tag starts with `c++`, and appends the flag spelled
`/std:` for an MSVC-like compiler and `-std=` otherwise, concatenated with
the tag. -/
def language_std (build : CcBuild) (isLikeMsvc : Bool) (std : String) : CcBuild :=
  let b := { build with cpp := strStarts std "c++" }
  let flag := if isLikeMsvc then "/std:" else "-std="
  { b with flags := b.flags ++ [flag ++ std] }

/-- Embedding of `is_big_endian` (src/build.rs:282-286): reads
`CARGO_CFG_TARGET_ENDIAN`, panicking with `No endian is set` when absent,
and answers whether it equals `big`. -/
def is_big_endian (inp : BuildInput) : Except String (Bool × Trace) :=
  match inp.targetEndian with
  | none => .error "No endian is set"
  | some endianess => .ok (endianess == "big", [Event.envRead "CARGO_CFG_TARGET_ENDIAN"])

/-- Embedding of `is_64bit_compilation` (src/build.rs:289-311): reads
`CARGO_CFG_TARGET_POINTER_WIDTH`, panicking with
`Target pointer width is not set` when absent.  When the width is `64`
it trial-compiles `depend/check_uint128_t.c` and returns the outcome,
emitting a `cargo:warning` on failure; otherwise it returns `false`
without any trial. -/
def is_64bit_compilation (inp : BuildInput) : Except String (Bool × Trace) :=
  match inp.targetPointerWidth with
  | none => .error "Target pointer width is not set"
  | some target_pointer_width =>
    if target_pointer_width == "64" then
      let check := inp.trialCompileOk
      .ok (check,
        [Event.envRead "CARGO_CFG_TARGET_POINTER_WIDTH", Event.trialCompile] ++
          (if check then [] else
            [Event.warning
              "Compiling in 32-bit mode on a 64-bit architecture due to lack of uint128_t support."]))
    else
      .ok (false, [Event.envRead "CARGO_CFG_TARGET_POINTER_WIDTH"])

/-- The secp256k1 compilation plan as assembled by `build_secp256k1`
(src/build.rs:234-278), given the detected compiler family and the two
probe results. -/
def secp256k1_plan (isLikeMsvc bigEndian use64 : Bool) : CcBuild :=
  let b := language_std ccNew isLikeMsvc "c99"
  let b := { b with
    defines := b.defines ++
      [("SECP256K1_BUILD", some ""),
       ("USE_NUM_NONE", some "1"),
       ("USE_FIELD_INV_BUILTIN", some "1"),
       ("USE_SCALAR_INV_BUILTIN", some "1"),
       ("ECMULT_WINDOW_SIZE", some "15"),
       ("ECMULT_GEN_PREC_BITS", some "4"),
       ("USE_ENDOMORPHISM", some "1"),
       ("ENABLE_MODULE_RECOVERY", some "1")],
    includes := b.includes ++ ["depend/zcash/src/secp256k1"],
    flagsIfSupported := b.flagsIfSupported ++
      ["-Wno-unused-function", "-Wno-unused-parameter"] }
  let b := if bigEndian then
      { b with defines := b.defines ++ [("WORDS_BIGENDIAN", some "1")] }
    else b
  let b := if use64 then
      { b with defines := b.defines ++
        [("USE_FIELD_5X52", some "1"),
         ("USE_SCALAR_4X64", some "1"),
         ("HAVE___INT128", some "1")] }
    else
      { b with defines := b.defines ++
        [("USE_FIELD_10X26", some "1"),
         ("USE_SCALAR_8X32", some "1")] }
  { b with files := b.files ++
      ["depend/zcash/src/secp256k1/src/secp256k1.c",
       "depend/zcash/src/secp256k1/src/precomputed_ecmult.c",
       "depend/zcash/src/secp256k1/src/precomputed_ecmult_gen.c"] }

/-- Embedding of `build_secp256k1` (src/build.rs:234-279): probes byte
order and 64-bit capability, assembles the plan and invokes the toolchain
to produce `libsecp256k1.a`. -/
def build_secp256k1 (inp : BuildInput) : Except String (CcBuild × Trace) :=
  match is_big_endian inp with
  | .error e => .error e
  | .ok (bigEndian, t1) =>
    match is_64bit_compilation inp with
    | .error e => .error e
    | .ok (use64, t2) =>
      let plan := secp256k1_plan inp.isLikeMsvc bigEndian use64
      .ok (plan, t1 ++ t2 ++ [Event.compile plan "libsecp256k1.a"])

/-- Embedding of `bindgen_headers` (src/build.rs:28-48): declares a
rebuild dependency on the foreign header, runs bindgen (failure yields
`Error::GenerateBindings`, displayed with submodule remediation guidance),
then writes `bindings.rs` under `OUT_DIR` (a missing `OUT_DIR` yields
`Error::Env`, displayed as the `VarError` message). -/
def bindgen_headers (inp : BuildInput) : Except String Trace :=
  let t := [Event.rerunIfChanged "depend/zcash/src/script/zcash_script.h"]
  if inp.bindgenOk then
    match inp.outDir with
    | none => .error "environment variable not found"
    | some out_path =>
      match inp.writeBindingsErr with
      | some e => .error ("unable to write bindings: " ++ e)
      | none => .ok (t ++ [Event.writeFile (out_path ++ "/bindings.rs")])
  else
    .error "unable to generate bindings: try running 'git submodule init' and 'git submodule update'"

/-- The bridge module list of `gen_cxxbridge` (src/build.rs:72-79); must
match `CXXBRIDGE_RS` in depend/zcash/src/Makefile.am. -/
def cxxFilenames : List String :=
  ["blake2b", "ed25519", "equihash", "streams", "bridge", "sapling/zip32"]

/-- The message of the panic raised when `cxx_gen::generate_header_and_cc`
fails on one bridge module (src/build.rs:107-111). -/
def bridgeErrMsg (filename err : String) : String :=
  "invalid bridge file " ++ filename ++ ": " ++ err ++
    ". Try updating `filenames` to match zcashd"

/-- The per-module loop body of `gen_cxxbridge` (src/build.rs:89-122):
for each bridge module, declare the rebuild dependency, generate the
bridge (panicking with the module's name and the cause on failure), and
write the header and the implementation under the output tree. -/
def gen_bridge_files (inp : BuildInput) (header_out_path src_out_path : String) :
    List String → Except String Trace
  | [] => .ok []
  | filename :: rest =>
    match inp.cxxGenErr filename with
    | some err => .error (bridgeErrMsg filename err)
    | none =>
      match gen_bridge_files inp header_out_path src_out_path rest with
      | .error e => .error e
      | .ok t =>
        .ok ([Event.rerunIfChanged ("depend/zcash/src/rust/src/" ++ filename ++ ".rs"),
              Event.writeFile (header_out_path ++ "/" ++ filename ++ ".h"),
              Event.writeFile (src_out_path ++ "/" ++ filename ++ ".cpp")] ++ t)

/-- Embedding of `gen_cxxbridge` (src/build.rs:65-124): resolves the
output tree under `OUT_DIR`, creates the source and header output
directories, writes the generic `cxx.h` header, then processes every
bridge module in `cxxFilenames`. -/
def gen_cxxbridge (inp : BuildInput) : Except String Trace :=
  match inp.outDir with
  | none => .error "environment variable not found"
  | some out_path =>
    let src_out_path := out_path ++ "/gen/src"
    let header_out_path := out_path ++ "/gen/include/rust"
    match gen_bridge_files inp header_out_path src_out_path cxxFilenames with
    | .error e => .error e
    | .ok t =>
      .ok ([Event.createDirAll src_out_path,
            Event.createDirAll header_out_path,
            Event.writeFile (header_out_path ++ "/cxx.h")] ++ t)

/-- The three sapling module source paths the relocation step copies
(src/build.rs:151-165). -/
def relocation_sources : List String :=
  ["depend/zcash/src/rust/src/sapling.rs",
   "depend/zcash/src/rust/src/sapling/spec.rs",
   "depend/zcash/src/rust/src/sapling/zip32.rs"]

/-- The `cargo:rerun-if-changed` paths emitted by the relocation loop
(src/build.rs:145-150): the format string appends `.rs` to each entry of
`["sapling.rs", "sapling/spec.rs", "sapling/zip32.rs"]`. -/
def relocation_rerun_paths : List String :=
  (["sapling.rs", "sapling/spec.rs", "sapling/zip32.rs"]).map
    (fun filename => "depend/zcash/src/rust/src/" ++ filename ++ ".rs")

/-- The (source, destination) pairs of the three `fs::copy` calls of the
relocation step (src/build.rs:151-165), with `rust_path = OUT_DIR/rust`:
the root `sapling.rs` is renamed to `sapling/mod.rs`, the two sub-modules
keep their names under the fresh `sapling` subdirectory. -/
def relocation_copies (rust_path : String) : List (String × String) :=
  [("depend/zcash/src/rust/src/sapling.rs", rust_path ++ "/sapling/mod.rs"),
   ("depend/zcash/src/rust/src/sapling/spec.rs", rust_path ++ "/sapling/spec.rs"),
   ("depend/zcash/src/rust/src/sapling/zip32.rs", rust_path ++ "/sapling/zip32.rs")]

/-- Trace of the relocation step of `main` (src/build.rs:144-165): create
the `sapling` subdirectory, emit the (malformed, see
`relocation_rerun_paths`) rebuild triggers, then perform the copies. -/
def relocate_trace (rust_path : String) : Trace :=
  Event.createDirAll (rust_path ++ "/sapling") ::
    (relocation_rerun_paths.map Event.rerunIfChanged ++
      (relocation_copies rust_path).map (fun c => Event.copyFile c.1 c.2))

/-- The effect of a sequence of `fs::copy` calls on a file-system,
modelled as a map from path to optional content: each copy overwrites the
destination with the current content of the source. -/
def applyCopies (fs : String → Option String) : List (String × String) → (String → Option String)
  | [] => fs
  | c :: rest => applyCopies (fun p => if p = c.2 then fs c.1 else fs p) rest

/-- The main-library plan before the platform-conditional define and the
file list (src/build.rs:171-192): C++17, include paths, suppressed
vendored warnings and the two unconditional defines. -/
def base_config (isLikeMsvc : Bool) (gen_path : String) : CcBuild :=
  let b := language_std ccNew isLikeMsvc "c++17"
  { b with
    includes := b.includes ++
      ["depend/zcash/src/",
       "depend/zcash/src/rust/include/",
       "depend/zcash/src/secp256k1/include/",
       "depend/expected/include/",
       gen_path ++ "/include"],
    flagsIfSupported := b.flagsIfSupported ++
      ["-Wno-implicit-fallthrough", "-Wno-catch-value", "-Wno-reorder",
       "-Wno-deprecated-copy", "-Wno-unused-parameter", "-Wno-unused-variable",
       "-Wno-ignored-qualifiers", "-Wno-sign-compare", "/wd4100"],
    defines := b.defines ++
      [("HAVE_DECL_STRNLEN", some "1"), ("__STDC_FORMAT_MACROS", none)] }

/-- The hand-written source files of the main-library plan
(src/build.rs:204-222). -/
def zcashSourceFiles : List String :=
  ["depend/zcash/src/script/zcash_script.cpp",
   "depend/zcash/src/util/strencodings.cpp",
   "depend/zcash/src/amount.cpp",
   "depend/zcash/src/uint256.cpp",
   "depend/zcash/src/pubkey.cpp",
   "depend/zcash/src/hash.cpp",
   "depend/zcash/src/streams_rust.cpp",
   "depend/zcash/src/zip317.cpp",
   "depend/zcash/src/primitives/transaction.cpp",
   "depend/zcash/src/crypto/ripemd160.cpp",
   "depend/zcash/src/crypto/sha1.cpp",
   "depend/zcash/src/crypto/sha256.cpp",
   "depend/zcash/src/crypto/sha512.cpp",
   "depend/zcash/src/crypto/hmac_sha512.cpp",
   "depend/zcash/src/script/interpreter.cpp",
   "depend/zcash/src/script/script.cpp",
   "depend/zcash/src/script/script_error.cpp",
   "depend/zcash/src/support/cleanse.cpp",
   "depend/zcash/src/zcash/cache.cpp"]

/-- The complete main-library plan handed to `.compile("libzcash_script.a")`
(src/build.rs:199-228): `base_config` plus the `WIN32` define when the
target triple contains `windows`, the hand-written sources and the three
required generated bridge sources. -/
def base_plan (isLikeMsvc : Bool) (gen_path target : String) : CcBuild :=
  let b := base_config isLikeMsvc gen_path
  let b := if strHas target "windows" then
      { b with defines := b.defines ++ [("WIN32", some "1")] }
    else b
  { b with files := b.files ++ zcashSourceFiles ++
      [gen_path ++ "/src/blake2b.cpp",
       gen_path ++ "/src/bridge.cpp",
       gen_path ++ "/src/streams.cpp"] }

/-- Embedding of `main` (src/build.rs:126-231): bindgen, cxx bridge
generation, sapling relocation, reading `TARGET`, the conditional
secp256k1 build (skipped when the `external-secp` feature is set), and
the final main-library toolchain invocation. -/
def main (inp : BuildInput) : Except String Trace :=
  match bindgen_headers inp with
  | .error e => .error e
  | .ok t1 =>
    match gen_cxxbridge inp with
    | .error e => .error e
    | .ok t2 =>
      match inp.outDir with
      | none => .error "environment variable not found"
      | some out_path =>
        let rust_path := out_path ++ "/rust"
        let t3 := relocate_trace rust_path
        match inp.target with
        | none => .error "TARGET was not set"
        | some target =>
          let gen_path := out_path ++ "/gen"
          match (if inp.externalSecp then Except.ok ([] : Trace)
                 else
                   match build_secp256k1 inp with
                   | .error e => .error e
                   | .ok r => .ok r.2) with
          | .error e => .error e
          | .ok t4 =>
            .ok (t1 ++ t2 ++ t3 ++ t4 ++
              [Event.compile (base_plan inp.isLikeMsvc gen_path target) "libzcash_script.a"])

/-! ### Event classifiers used by the claims -/

/-- Actions of the Platform Capability Prober: reads of the two platform
descriptors and the trial compilation. -/
def isProbeEvent : Event → Bool
  | .envRead _ => true
  | .trialCompile => true
  | _ => false

/-- The read of the byte-order descriptor. -/
def isEndianReadEvent : Event → Bool
  | .envRead v => v == "CARGO_CFG_TARGET_ENDIAN"
  | _ => false

/-- The read of the pointer-width descriptor. -/
def isPointerWidthReadEvent : Event → Bool
  | .envRead v => v == "CARGO_CFG_TARGET_POINTER_WIDTH"
  | _ => false

/-- The trial compilation of the uint128 probe source. -/
def isTrialEvent : Event → Bool
  | .trialCompile => true
  | _ => false

/-- A toolchain invocation. -/
def isCompileEvent : Event → Bool
  | .compile _ _ => true
  | _ => false

/-- A file write (declaration synthesis and bridge generation outputs). -/
def isWriteEvent : Event → Bool
  | .writeFile _ => true
  | _ => false

/-- A relocation copy. -/
def isCopyEvent : Event → Bool
  | .copyFile _ _ => true
  | _ => false

/-- The rebuild trigger of the External Declaration Synthesizer (the
foreign header of `bindgen_headers`). -/
def isSynthRerunEvent : Event → Bool
  | .rerunIfChanged p => p == "depend/zcash/src/script/zcash_script.h"
  | _ => false

/-- A fully successful sample input: 64-bit little-endian target with
uint128 support, non-MSVC compiler, vendored secp256k1 built. -/
def sampleInput : BuildInput :=
  { outDir := some "out"
    target := some "x86_64-unknown-linux-gnu"
    targetEndian := some "little"
    targetPointerWidth := some "64"
    externalSecp := false
    trialCompileOk := true
    isLikeMsvc := false
    bindgenOk := true
    writeBindingsErr := none
    cxxGenErr := fun _ => none }

/-- The trace of a successful run (empty when the run aborts). -/
def mainTraceOf (inp : BuildInput) : Trace := ((main inp).toOption).getD []

/-- A run in which bridge generation fails on the `bridge` module. -/
def bridgeFailInput : BuildInput :=
  { sampleInput with cxxGenErr := fun f => if f = "bridge" then some "boom" else none }

/-- A run with the `external-secp` feature set and both platform
descriptors absent. -/
def externalNoDescInput : BuildInput :=
  { sampleInput with
    externalSecp := true
    targetEndian := none
    targetPointerWidth := none }

/-- Number of language-standard flags in a flag list (flags spelled
`/std:` or `-std=`). -/
def countStdFlags (flags : List String) : Nat :=
  (flags.filter (fun f => strStarts f "/std:" || strStarts f "-std=")).length

/-- The bridge-generation trace on the all-success path: three events per
module, in module order. -/
def bridgeTraceOf (header_out_path src_out_path : String) : List String → Trace
  | [] => []
  | filename :: rest =>
    [Event.rerunIfChanged ("depend/zcash/src/rust/src/" ++ filename ++ ".rs"),
     Event.writeFile (header_out_path ++ "/" ++ filename ++ ".h"),
     Event.writeFile (src_out_path ++ "/" ++ filename ++ ".cpp")] ++
      bridgeTraceOf header_out_path src_out_path rest

/-- The trace of everything `main` does before the secp256k1 step, on the
all-success path: declaration synthesis, bridge generation, relocation. -/
def fullPre (o : String) : Trace :=
  [Event.rerunIfChanged "depend/zcash/src/script/zcash_script.h",
   Event.writeFile (o ++ "/bindings.rs"),
   Event.createDirAll (o ++ "/gen/src"),
   Event.createDirAll (o ++ "/gen/include/rust"),
   Event.writeFile (o ++ "/gen/include/rust" ++ "/cxx.h")] ++
    bridgeTraceOf (o ++ "/gen/include/rust") (o ++ "/gen/src") cxxFilenames ++
    relocate_trace (o ++ "/rust")

/-- The trace of the secp256k1 step given the probed values: the two
descriptor reads, the conditional trial and warning, and the
`libsecp256k1.a` toolchain invocation. -/
def secpTraceOf (plan : CcBuild) (w64 trialOk : Bool) : Trace :=
  Event.envRead "CARGO_CFG_TARGET_ENDIAN" ::
    Event.envRead "CARGO_CFG_TARGET_POINTER_WIDTH" ::
    ((if w64 then
        Event.trialCompile ::
          (if trialOk then [] else
            [Event.warning
              "Compiling in 32-bit mode on a 64-bit architecture due to lack of uint128_t support."])
      else []) ++
      [Event.compile plan "libsecp256k1.a"])

/-- The unconditional configuration defines of the secp256k1 plan. -/
def secpBaseDefines : List (String × Option String) :=
  [("SECP256K1_BUILD", some ""),
   ("USE_NUM_NONE", some "1"),
   ("USE_FIELD_INV_BUILTIN", some "1"),
   ("USE_SCALAR_INV_BUILTIN", some "1"),
   ("ECMULT_WINDOW_SIZE", some "15"),
   ("ECMULT_GEN_PREC_BITS", some "4"),
   ("USE_ENDOMORPHISM", some "1"),
   ("ENABLE_MODULE_RECOVERY", some "1")]

/-- Closed form of `build_secp256k1` when both platform descriptors are
present: the run succeeds, selecting the wide representation exactly when
the width descriptor is `64` and the trial succeeds, and emits the two
descriptor reads, the conditional trial and warning, and the toolchain
invocation. -/
lemma build_secp256k1_eq (inp : BuildInput) (e w : String)
    (he : inp.targetEndian = some e) (hw : inp.targetPointerWidth = some w) :
    build_secp256k1 inp =
      .ok (secp256k1_plan inp.isLikeMsvc (e == "big") ((w == "64") && inp.trialCompileOk),
        secpTraceOf
          (secp256k1_plan inp.isLikeMsvc (e == "big") ((w == "64") && inp.trialCompileOk))
          (w == "64") inp.trialCompileOk) := by
  by_cases hw64 : w = "64"
  · cases htr : inp.trialCompileOk <;>
      simp [build_secp256k1, is_big_endian, is_64bit_compilation, secpTraceOf,
        he, hw, htr, hw64]
  · have hb : (w == "64") = false := by simp [hw64]
    cases htr : inp.trialCompileOk <;>
      simp [build_secp256k1, is_big_endian, is_64bit_compilation, secpTraceOf,
        he, hw, htr, hb]

lemma secp256k1_plan_defines (m be u64 : Bool) :
    (secp256k1_plan m be u64).defines =
      secpBaseDefines ++
        (if be then [("WORDS_BIGENDIAN", some "1")] else []) ++
        (if u64 then
          [("USE_FIELD_5X52", some "1"),
           ("USE_SCALAR_4X64", some "1"),
           ("HAVE___INT128", some "1")]
         else
          [("USE_FIELD_10X26", some "1"),
           ("USE_SCALAR_8X32", some "1")]) := by
  cases be <;> cases u64 <;>
    simp [secp256k1_plan, language_std, ccNew, secpBaseDefines]

/-- If the trailing `a.length` elements of `b` differ from `a`, then no
prefix `p` makes `p ++ a` equal to `b`. -/
lemma append_ne_of_ne_drop {α} (p a b : List α)
    (hsuf : b.drop (b.length - a.length) ≠ a) :
    p ++ a ≠ b := by
  intro he
  apply hsuf
  rw [← he, List.length_append, Nat.add_sub_cancel]
  exact List.drop_left _ _

/-- String version: `p ++ a ≠ b` whenever the trailing characters of `b`
differ from `a`. -/
lemma str_append_ne (p a b : String)
    (hsuf : b.data.drop (b.data.length - a.data.length) ≠ a.data) :
    p ++ a ≠ b := by
  intro he
  exact append_ne_of_ne_drop p.data a.data b.data hsuf
    (by rw [← String.data_append, he])

/-- Left-cancellation of string append. -/
lemma str_append_left_cancel {p a b : String} (h : p ++ a = p ++ b) : a = b := by
  apply String.ext
  have h2 : p.data ++ a.data = p.data ++ b.data := by
    rw [← String.data_append, ← String.data_append, h]
  exact List.append_cancel_left h2

/-- Reassociation of a string append against a computed literal. -/
lemma str_assoc_lit (p a b c : String) (h : a ++ b = c) :
    (p ++ a) ++ b = p ++ c := by
  apply String.ext
  simp [String.data_append, ← h, List.append_assoc]

/-- `charsStarts` decides the prefix relation. -/
lemma charsStarts_iff (pat s : List Char) :
    charsStarts pat s = true ↔ ∃ t, s = pat ++ t := by
  induction pat generalizing s with
  | nil => simp [charsStarts]
  | cons c cs ih =>
    cases s with
    | nil => simp [charsStarts]
    | cons d ds =>
      simp only [charsStarts, Bool.and_eq_true, beq_iff_eq, ih, List.cons_append]
      constructor
      · rintro ⟨rfl, t, rfl⟩
        exact ⟨t, rfl⟩
      · rintro ⟨t, heq⟩
        injection heq with h1 h2
        exact ⟨h1.symm, t, h2⟩

/-- `strStarts` decides the string prefix relation. -/
lemma strStarts_iff (s pat : String) :
    strStarts s pat = true ↔ ∃ r : String, s = pat ++ r := by
  rw [strStarts, charsStarts_iff]
  constructor
  · rintro ⟨t, ht⟩
    refine ⟨⟨t⟩, ?_⟩
    apply String.ext
    rw [String.data_append]
    exact ht
  · rintro ⟨r, rfl⟩
    exact ⟨r.data, String.data_append _ _⟩

/-- Closed form of `bindgen_headers` on success. -/
lemma bindgen_headers_eq (inp : BuildInput) (o : String)
    (ho : inp.outDir = some o) (hb : inp.bindgenOk = true)
    (hwb : inp.writeBindingsErr = none) :
    bindgen_headers inp =
      .ok [Event.rerunIfChanged "depend/zcash/src/script/zcash_script.h",
           Event.writeFile (o ++ "/bindings.rs")] := by
  simp [bindgen_headers, ho, hb, hwb]

/-- On the all-success path, the per-module bridge loop produces the
three events per module. -/
lemma gen_bridge_files_eq (inp : BuildInput) (h s : String)
    (hg : ∀ f, inp.cxxGenErr f = none) :
    ∀ l : List String,
      gen_bridge_files inp h s l = .ok (bridgeTraceOf h s l) := by
  intro l
  induction l with
  | nil => simp [gen_bridge_files, bridgeTraceOf]
  | cons f rest ih => simp [gen_bridge_files, bridgeTraceOf, hg, ih]

/-- Closed form of `gen_cxxbridge` on the all-success path. -/
lemma gen_cxxbridge_eq (inp : BuildInput) (o : String)
    (ho : inp.outDir = some o) (hg : ∀ f, inp.cxxGenErr f = none) :
    gen_cxxbridge inp =
      .ok ([Event.createDirAll (o ++ "/gen/src"),
            Event.createDirAll (o ++ "/gen/include/rust"),
            Event.writeFile (o ++ "/gen/include/rust" ++ "/cxx.h")] ++
          bridgeTraceOf (o ++ "/gen/include/rust") (o ++ "/gen/src") cxxFilenames) := by
  simp [gen_cxxbridge, ho, gen_bridge_files_eq inp _ _ hg]

/-- Closed form of `main` when the `external-secp` feature is set: the
secp256k1 step is skipped entirely. -/
lemma main_eq_external (inp : BuildInput) (o tg : String)
    (ho : inp.outDir = some o) (htg : inp.target = some tg)
    (hb : inp.bindgenOk = true) (hwb : inp.writeBindingsErr = none)
    (hg : ∀ f, inp.cxxGenErr f = none) (hx : inp.externalSecp = true) :
    main inp =
      .ok (fullPre o ++
        [Event.compile (base_plan inp.isLikeMsvc (o ++ "/gen") tg) "libzcash_script.a"]) := by
  simp [main, bindgen_headers_eq inp o ho hb hwb, gen_cxxbridge_eq inp o ho hg,
    ho, htg, hx, fullPre]

/-- Closed form of `main` when the vendored secp256k1 is built and both
platform descriptors are present. -/
lemma main_eq_vendored (inp : BuildInput) (o tg e w : String)
    (ho : inp.outDir = some o) (htg : inp.target = some tg)
    (hb : inp.bindgenOk = true) (hwb : inp.writeBindingsErr = none)
    (hg : ∀ f, inp.cxxGenErr f = none) (hx : inp.externalSecp = false)
    (he : inp.targetEndian = some e) (hw : inp.targetPointerWidth = some w) :
    main inp =
      .ok (fullPre o ++
        secpTraceOf
          (secp256k1_plan inp.isLikeMsvc (e == "big") ((w == "64") && inp.trialCompileOk))
          (w == "64") inp.trialCompileOk ++
        [Event.compile (base_plan inp.isLikeMsvc (o ++ "/gen") tg) "libzcash_script.a"]) := by
  simp [main, bindgen_headers_eq inp o ho hb hwb, gen_cxxbridge_eq inp o ho hg,
    ho, htg, hx, build_secp256k1_eq inp e w he hw, fullPre]

/-! ### Claims -/

/-- C1: for every build in which the secp256k1 plan is constructed (both
platform descriptors present), the plan defines `USE_FIELD_5X52`,
`USE_SCALAR_4X64` and `HAVE___INT128` when the probed pointer width is
`64` and the extended-integer trial succeeds, and `USE_FIELD_10X26` and
`USE_SCALAR_8X32` otherwise, never both sets; and `WORDS_BIGENDIAN` is
present in the plan exactly when the probed byte order is `big`. -/
theorem C1_variant_selection (inp : BuildInput) (e w : String)
    (he : inp.targetEndian = some e) (hw : inp.targetPointerWidth = some w) :
    ∃ plan t, build_secp256k1 inp = .ok (plan, t) ∧
      ((w = "64" ∧ inp.trialCompileOk = true →
        ("USE_FIELD_5X52", some "1") ∈ plan.defines ∧
        ("USE_SCALAR_4X64", some "1") ∈ plan.defines ∧
        ("HAVE___INT128", some "1") ∈ plan.defines ∧
        (∀ v, ("USE_FIELD_10X26", v) ∉ plan.defines) ∧
        (∀ v, ("USE_SCALAR_8X32", v) ∉ plan.defines)) ∧
       (¬(w = "64" ∧ inp.trialCompileOk = true) →
        ("USE_FIELD_10X26", some "1") ∈ plan.defines ∧
        ("USE_SCALAR_8X32", some "1") ∈ plan.defines ∧
        (∀ v, ("USE_FIELD_5X52", v) ∉ plan.defines) ∧
        (∀ v, ("USE_SCALAR_4X64", v) ∉ plan.defines) ∧
        (∀ v, ("HAVE___INT128", v) ∉ plan.defines)) ∧
       ((("WORDS_BIGENDIAN", some "1") ∈ plan.defines) ↔ e = "big")) := by
  have hbe : (e == "big") = decide (e = "big") := by
    cases h : e == "big" <;> simp_all
  by_cases hw64 : w = "64"
  · subst hw64
    cases htr : inp.trialCompileOk
    · refine ⟨secp256k1_plan inp.isLikeMsvc (e == "big") false,
        [Event.envRead "CARGO_CFG_TARGET_ENDIAN",
         Event.envRead "CARGO_CFG_TARGET_POINTER_WIDTH", Event.trialCompile,
         Event.warning
           "Compiling in 32-bit mode on a 64-bit architecture due to lack of uint128_t support.",
         Event.compile (secp256k1_plan inp.isLikeMsvc (e == "big") false) "libsecp256k1.a"],
        ?_, ?_, ?_, ?_⟩
      · simp [build_secp256k1, is_big_endian, is_64bit_compilation, he, hw, htr]
      · rintro ⟨-, h⟩; exact absurd h (by simp [htr])
      · intro _
        by_cases hb : e = "big" <;>
          simp [secp256k1_plan_defines, secpBaseDefines, hbe, hb]
      · by_cases hb : e = "big" <;> simp [secp256k1_plan_defines, secpBaseDefines, hbe, hb]
    · refine ⟨secp256k1_plan inp.isLikeMsvc (e == "big") true,
        [Event.envRead "CARGO_CFG_TARGET_ENDIAN",
         Event.envRead "CARGO_CFG_TARGET_POINTER_WIDTH", Event.trialCompile,
         Event.compile (secp256k1_plan inp.isLikeMsvc (e == "big") true) "libsecp256k1.a"],
        ?_, ?_, ?_, ?_⟩
      · simp [build_secp256k1, is_big_endian, is_64bit_compilation, he, hw, htr]
      · intro _
        by_cases hb : e = "big" <;>
          simp [secp256k1_plan_defines, secpBaseDefines, hbe, hb]
      · rintro h; exact absurd ⟨rfl, rfl⟩ h
      · by_cases hb : e = "big" <;> simp [secp256k1_plan_defines, secpBaseDefines, hbe, hb]
  · refine ⟨secp256k1_plan inp.isLikeMsvc (e == "big") false,
      [Event.envRead "CARGO_CFG_TARGET_ENDIAN",
       Event.envRead "CARGO_CFG_TARGET_POINTER_WIDTH",
       Event.compile (secp256k1_plan inp.isLikeMsvc (e == "big") false) "libsecp256k1.a"],
      ?_, ?_, ?_, ?_⟩
    · simp [build_secp256k1, is_big_endian, is_64bit_compilation, he, hw,
        show (w == "64") = false by simp [hw64]]
    · rintro ⟨h, -⟩; exact absurd h hw64
    · intro _
      by_cases hb : e = "big" <;>
        simp [secp256k1_plan_defines, secpBaseDefines, hbe, hb]
    · by_cases hb : e = "big" <;> simp [secp256k1_plan_defines, secpBaseDefines, hbe, hb]

/-- Witness for C1: on a little-endian 64-bit target with a successful
trial, the constructed plan contains the wide field representation. -/
theorem C1_variant_selection_witness :
    ∃ plan t, build_secp256k1 sampleInput = .ok (plan, t) ∧
      ("USE_FIELD_5X52", some "1") ∈ plan.defines ∧
      (("WORDS_BIGENDIAN", some "1") ∈ plan.defines ↔ "little" = "big") := by
  obtain ⟨plan, t, h1, h2, -, h3⟩ :=
    C1_variant_selection sampleInput "little" "64" rfl rfl
  exact ⟨plan, t, h1, (h2 ⟨rfl, rfl⟩).1, h3⟩

/-- C2: when the pointer-width descriptor reads `64` but the uint128
trial compilation fails, the probe returns `false`, emits the
human-readable warning, and the build proceeds (the secp256k1 step
still succeeds); when the descriptor is not `64`, the probe returns
`false` without attempting any trial compilation. -/
theorem C2_probe_fallback (inp : BuildInput) (w : String)
    (hw : inp.targetPointerWidth = some w) :
    (w = "64" → inp.trialCompileOk = false →
      is_64bit_compilation inp =
        .ok (false,
          [Event.envRead "CARGO_CFG_TARGET_POINTER_WIDTH", Event.trialCompile,
           Event.warning
             "Compiling in 32-bit mode on a 64-bit architecture due to lack of uint128_t support."]) ∧
      (∀ e, inp.targetEndian = some e → ∃ plan t, build_secp256k1 inp = .ok (plan, t))) ∧
    (w ≠ "64" →
      is_64bit_compilation inp =
        .ok (false, [Event.envRead "CARGO_CFG_TARGET_POINTER_WIDTH"])) := by
  constructor
  · rintro rfl htr
    constructor
    · simp [is_64bit_compilation, hw, htr]
    · intro e he
      exact ⟨_, _, build_secp256k1_eq inp e "64" he hw⟩
  · intro hne
    simp [is_64bit_compilation, hw, show (w == "64") = false by simp [hne]]

/-- Witness for C2: both branches at concrete inputs. -/
theorem C2_probe_fallback_witness :
    (is_64bit_compilation { sampleInput with trialCompileOk := false } =
      .ok (false,
        [Event.envRead "CARGO_CFG_TARGET_POINTER_WIDTH", Event.trialCompile,
         Event.warning
           "Compiling in 32-bit mode on a 64-bit architecture due to lack of uint128_t support."])) ∧
    (is_64bit_compilation { sampleInput with targetPointerWidth := some "32" } =
      .ok (false, [Event.envRead "CARGO_CFG_TARGET_POINTER_WIDTH"])) := by
  constructor
  · exact ((C2_probe_fallback { sampleInput with trialCompileOk := false } "64" rfl).1
      rfl rfl).1
  · exact (C2_probe_fallback { sampleInput with targetPointerWidth := some "32" } "32"
      rfl).2 (by decide)

/-- C3: the relocation step copies exactly the three sapling module
files, renaming the root `sapling.rs` to `sapling/mod.rs` and keeping the
sub-module filenames; the destination contents equal the source contents,
the sources themselves are left untouched, and every destination path
lies under `OUT_DIR/rust/`, never equal to a path of the original source
tree. -/
theorem C3_relocation (out_path : String) (fs : String → Option String) :
    ((relocation_copies (out_path ++ "/rust")).map Prod.fst = relocation_sources) ∧
    (applyCopies fs (relocation_copies (out_path ++ "/rust"))
        ((out_path ++ "/rust") ++ "/sapling/mod.rs") =
      fs "depend/zcash/src/rust/src/sapling.rs") ∧
    (applyCopies fs (relocation_copies (out_path ++ "/rust"))
        ((out_path ++ "/rust") ++ "/sapling/spec.rs") =
      fs "depend/zcash/src/rust/src/sapling/spec.rs") ∧
    (applyCopies fs (relocation_copies (out_path ++ "/rust"))
        ((out_path ++ "/rust") ++ "/sapling/zip32.rs") =
      fs "depend/zcash/src/rust/src/sapling/zip32.rs") ∧
    (∀ p ∈ relocation_sources,
      applyCopies fs (relocation_copies (out_path ++ "/rust")) p = fs p) ∧
    (∀ c ∈ relocation_copies (out_path ++ "/rust"),
      (∃ rest, c.2 = (out_path ++ "/rust/") ++ rest) ∧ c.2 ∉ relocation_sources) := by
  have ed1 : (out_path ++ "/rust") ++ "/sapling/mod.rs" =
      out_path ++ "/rust/sapling/mod.rs" := str_assoc_lit _ _ _ _ (by decide)
  have ed2 : (out_path ++ "/rust") ++ "/sapling/spec.rs" =
      out_path ++ "/rust/sapling/spec.rs" := str_assoc_lit _ _ _ _ (by decide)
  have ed3 : (out_path ++ "/rust") ++ "/sapling/zip32.rs" =
      out_path ++ "/rust/sapling/zip32.rs" := str_assoc_lit _ _ _ _ (by decide)
  have ed1' : (out_path ++ "/rust/") ++ "sapling/mod.rs" =
      out_path ++ "/rust/sapling/mod.rs" := str_assoc_lit _ _ _ _ (by decide)
  have ed2' : (out_path ++ "/rust/") ++ "sapling/spec.rs" =
      out_path ++ "/rust/sapling/spec.rs" := str_assoc_lit _ _ _ _ (by decide)
  have ed3' : (out_path ++ "/rust/") ++ "sapling/zip32.rs" =
      out_path ++ "/rust/sapling/zip32.rs" := str_assoc_lit _ _ _ _ (by decide)
  have h11 : out_path ++ "/rust/sapling/mod.rs" ≠
      "depend/zcash/src/rust/src/sapling.rs" := str_append_ne _ _ _ (by decide)
  have h12 : out_path ++ "/rust/sapling/mod.rs" ≠
      "depend/zcash/src/rust/src/sapling/spec.rs" := str_append_ne _ _ _ (by decide)
  have h13 : out_path ++ "/rust/sapling/mod.rs" ≠
      "depend/zcash/src/rust/src/sapling/zip32.rs" := str_append_ne _ _ _ (by decide)
  have h21 : out_path ++ "/rust/sapling/spec.rs" ≠
      "depend/zcash/src/rust/src/sapling.rs" := str_append_ne _ _ _ (by decide)
  have h22 : out_path ++ "/rust/sapling/spec.rs" ≠
      "depend/zcash/src/rust/src/sapling/spec.rs" := str_append_ne _ _ _ (by decide)
  have h23 : out_path ++ "/rust/sapling/spec.rs" ≠
      "depend/zcash/src/rust/src/sapling/zip32.rs" := str_append_ne _ _ _ (by decide)
  have h31 : out_path ++ "/rust/sapling/zip32.rs" ≠
      "depend/zcash/src/rust/src/sapling.rs" := str_append_ne _ _ _ (by decide)
  have h32 : out_path ++ "/rust/sapling/zip32.rs" ≠
      "depend/zcash/src/rust/src/sapling/spec.rs" := str_append_ne _ _ _ (by decide)
  have h33 : out_path ++ "/rust/sapling/zip32.rs" ≠
      "depend/zcash/src/rust/src/sapling/zip32.rs" := str_append_ne _ _ _ (by decide)
  have hdd12 : out_path ++ "/rust/sapling/mod.rs" ≠ out_path ++ "/rust/sapling/spec.rs" :=
    fun h => absurd (str_append_left_cancel h) (by decide)
  have hdd13 : out_path ++ "/rust/sapling/mod.rs" ≠ out_path ++ "/rust/sapling/zip32.rs" :=
    fun h => absurd (str_append_left_cancel h) (by decide)
  have hdd23 : out_path ++ "/rust/sapling/spec.rs" ≠ out_path ++ "/rust/sapling/zip32.rs" :=
    fun h => absurd (str_append_left_cancel h) (by decide)
  refine ⟨by simp [relocation_copies, relocation_sources], ?_, ?_, ?_, ?_, ?_⟩
  · simp only [relocation_copies, applyCopies, ed1, ed2, ed3]
    simp [hdd12, hdd13, hdd23, hdd12.symm, hdd13.symm, hdd23.symm,
      h11.symm, h12.symm, h13.symm, h21.symm, h22.symm, h23.symm,
      h31.symm, h32.symm, h33.symm]
  · simp only [relocation_copies, applyCopies, ed1, ed2, ed3]
    simp [hdd12, hdd13, hdd23, hdd12.symm, hdd13.symm, hdd23.symm,
      h11.symm, h12.symm, h13.symm, h21.symm, h22.symm, h23.symm,
      h31.symm, h32.symm, h33.symm]
  · simp only [relocation_copies, applyCopies, ed1, ed2, ed3]
    simp [hdd12, hdd13, hdd23, hdd12.symm, hdd13.symm, hdd23.symm,
      h11.symm, h12.symm, h13.symm, h21.symm, h22.symm, h23.symm,
      h31.symm, h32.symm, h33.symm]
  · intro p hp
    simp only [relocation_sources, List.mem_cons, List.not_mem_nil, or_false] at hp
    rcases hp with rfl | rfl | rfl <;>
      · simp only [relocation_copies, applyCopies, ed1, ed2, ed3]
        simp [h11.symm, h12.symm, h13.symm, h21.symm, h22.symm, h23.symm,
          h31.symm, h32.symm, h33.symm]
  · intro c hc
    simp only [relocation_copies, List.mem_cons, List.not_mem_nil, or_false] at hc
    rcases hc with rfl | rfl | rfl
    · exact ⟨⟨"sapling/mod.rs", by rw [ed1, ed1']⟩, by
        simp [relocation_sources, ed1, h11, h12, h13]⟩
    · exact ⟨⟨"sapling/spec.rs", by rw [ed2, ed2']⟩, by
        simp [relocation_sources, ed2, h21, h22, h23]⟩
    · exact ⟨⟨"sapling/zip32.rs", by rw [ed3, ed3']⟩, by
        simp [relocation_sources, ed3, h31, h32, h33]⟩

/-- Witness for C3: on a concrete output root, with file contents equal
to their own paths, the relocated `sapling/mod.rs` holds the content of
the source `sapling.rs`. -/
theorem C3_relocation_witness :
    applyCopies (fun p => some p) (relocation_copies ("out" ++ "/rust"))
        (("out" ++ "/rust") ++ "/sapling/mod.rs") =
      some "depend/zcash/src/rust/src/sapling.rs" :=
  (C3_relocation "out" (fun p => some p)).2.1

/-- C4 (code bug): the relocation loop's `cargo:rerun-if-changed` format
string appends `.rs` to entries that already carry the `.rs` extension,
so the emitted rebuild triggers name `...sapling.rs.rs`,
`...sapling/spec.rs.rs` and `...sapling/zip32.rs.rs` — none of them is a
path of the copied source set. -/
theorem C4_relocation_rerun_mismatch :
    relocation_rerun_paths =
      ["depend/zcash/src/rust/src/sapling.rs.rs",
       "depend/zcash/src/rust/src/sapling/spec.rs.rs",
       "depend/zcash/src/rust/src/sapling/zip32.rs.rs"] ∧
    relocation_sources.inter relocation_rerun_paths = [] := by decide

/-- C5: on a run where everything else succeeds, the trace contains a
`libsecp256k1.a` toolchain invocation exactly when the `external-secp`
feature is not set. -/
theorem C5_secp_conditional (inp : BuildInput) (o tg e w : String)
    (ho : inp.outDir = some o) (htg : inp.target = some tg)
    (hb : inp.bindgenOk = true) (hwb : inp.writeBindingsErr = none)
    (hg : ∀ f, inp.cxxGenErr f = none)
    (he : inp.targetEndian = some e) (hw : inp.targetPointerWidth = some w) :
    ∃ t, main inp = .ok t ∧
      ((∃ plan, Event.compile plan "libsecp256k1.a" ∈ t) ↔ inp.externalSecp = false) := by
  cases hx : inp.externalSecp
  · refine ⟨_, main_eq_vendored inp o tg e w ho htg hb hwb hg hx he hw, ?_⟩
    simp only [eq_self_iff_true, iff_true]
    exact ⟨secp256k1_plan inp.isLikeMsvc (e == "big") ((w == "64") && inp.trialCompileOk),
      by simp [secpTraceOf]⟩
  · refine ⟨_, main_eq_external inp o tg ho htg hb hwb hg hx, ?_⟩
    constructor
    · rintro ⟨plan, hmem⟩
      exfalso
      simp only [fullPre, bridgeTraceOf, cxxFilenames, relocate_trace,
        relocation_rerun_paths, relocation_copies, List.map, List.mem_append,
        List.mem_cons, List.not_mem_nil, or_false] at hmem
      simp at hmem
    · intro h; cases h

/-- Witness for C5: both values of the feature flag at concrete inputs. -/
theorem C5_secp_conditional_witness :
    (∃ t, main sampleInput = .ok t ∧
      ((∃ plan, Event.compile plan "libsecp256k1.a" ∈ t) ↔
        sampleInput.externalSecp = false)) ∧
    (∃ t, main { sampleInput with externalSecp := true } = .ok t ∧
      ((∃ plan, Event.compile plan "libsecp256k1.a" ∈ t) ↔
        ({ sampleInput with externalSecp := true } : BuildInput).externalSecp = false)) :=
  ⟨C5_secp_conditional sampleInput "out" "x86_64-unknown-linux-gnu" "little" "64"
      rfl rfl rfl rfl (fun _ => rfl) rfl rfl,
   C5_secp_conditional { sampleInput with externalSecp := true }
      "out" "x86_64-unknown-linux-gnu" "little" "64"
      rfl rfl rfl rfl (fun _ => rfl) rfl rfl⟩

/-- C6: a missing byte-order descriptor aborts the probe (and the whole
build, when it runs) with the message `No endian is set`, and a missing
pointer-width descriptor aborts with `Target pointer width is not set`;
neither has a default. -/
theorem C6_missing_descriptor_fatal (inp : BuildInput) (o tg : String)
    (ho : inp.outDir = some o) (htg : inp.target = some tg)
    (hb : inp.bindgenOk = true) (hwb : inp.writeBindingsErr = none)
    (hg : ∀ f, inp.cxxGenErr f = none) (hx : inp.externalSecp = false) :
    (inp.targetEndian = none →
      is_big_endian inp = .error "No endian is set" ∧
      main inp = .error "No endian is set") ∧
    (∀ e, inp.targetEndian = some e → inp.targetPointerWidth = none →
      is_64bit_compilation inp = .error "Target pointer width is not set" ∧
      main inp = .error "Target pointer width is not set") := by
  constructor
  · intro he
    constructor
    · simp [is_big_endian, he]
    · simp [main, bindgen_headers_eq inp o ho hb hwb, gen_cxxbridge_eq inp o ho hg,
        ho, htg, hx, build_secp256k1, is_big_endian, he]
  · intro e he hp
    constructor
    · simp [is_64bit_compilation, hp]
    · simp [main, bindgen_headers_eq inp o ho hb hwb, gen_cxxbridge_eq inp o ho hg,
        ho, htg, hx, build_secp256k1, is_big_endian, is_64bit_compilation, he, hp]

/-- Witness for C6: both missing-descriptor aborts at concrete inputs. -/
theorem C6_missing_descriptor_fatal_witness :
    (is_big_endian { sampleInput with targetEndian := none } =
        .error "No endian is set" ∧
      main { sampleInput with targetEndian := none } = .error "No endian is set") ∧
    (is_64bit_compilation { sampleInput with targetPointerWidth := none } =
        .error "Target pointer width is not set" ∧
      main { sampleInput with targetPointerWidth := none } =
        .error "Target pointer width is not set") :=
  ⟨(C6_missing_descriptor_fatal { sampleInput with targetEndian := none }
      "out" "x86_64-unknown-linux-gnu" rfl rfl rfl rfl (fun _ => rfl) rfl).1 rfl,
   (C6_missing_descriptor_fatal { sampleInput with targetPointerWidth := none }
      "out" "x86_64-unknown-linux-gnu" rfl rfl rfl rfl (fun _ => rfl) rfl).2
      "little" rfl rfl⟩

/-- C7: every generation failure is fatal and identifies the failing
artifact: a bindgen failure aborts the build with the submodule
remediation guidance; a failing bridge module makes `gen_cxxbridge`
abort with a message naming a failing module and its cause, and that
error propagates to the whole build; and on a successful bridge run no
module is skipped — every module's header and implementation are
written. -/
theorem C7_generation_failures_fatal (inp : BuildInput) :
    (inp.bindgenOk = false →
      main inp =
        .error "unable to generate bindings: try running 'git submodule init' and 'git submodule update'") ∧
    (∀ o f msg, inp.outDir = some o → f ∈ cxxFilenames → inp.cxxGenErr f = some msg →
      ∃ f2 msg2, f2 ∈ cxxFilenames ∧ inp.cxxGenErr f2 = some msg2 ∧
        gen_cxxbridge inp = .error (bridgeErrMsg f2 msg2)) ∧
    (∀ tb e, bindgen_headers inp = .ok tb → gen_cxxbridge inp = .error e →
      main inp = .error e) ∧
    (∀ o t, inp.outDir = some o → gen_cxxbridge inp = .ok t →
      ∀ f ∈ cxxFilenames,
        Event.writeFile ((o ++ "/gen/include/rust") ++ "/" ++ f ++ ".h") ∈ t ∧
        Event.writeFile ((o ++ "/gen/src") ++ "/" ++ f ++ ".cpp") ∈ t) := by
  refine ⟨?_, ?_, ?_, ?_⟩
  · intro hb
    simp [main, bindgen_headers, hb]
  · intro o f msg ho hf hmsg
    have key : ∀ l : List String, f ∈ l →
        ∃ f2 msg2, f2 ∈ l ∧ inp.cxxGenErr f2 = some msg2 ∧
          ∀ h s, gen_bridge_files inp h s l = .error (bridgeErrMsg f2 msg2) := by
      intro l
      induction l with
      | nil => intro h; cases h
      | cons a rest ih =>
        intro hmem
        cases ha : inp.cxxGenErr a with
        | some m =>
          exact ⟨a, m, List.mem_cons_self a rest, ha,
            fun h s => by simp [gen_bridge_files, ha]⟩
        | none =>
          have hfr : f ∈ rest := by
            rcases List.mem_cons.mp hmem with rfl | hr
            · rw [ha] at hmsg; cases hmsg
            · exact hr
          obtain ⟨f2, msg2, hf2, hmsg2, herr⟩ := ih hfr
          exact ⟨f2, msg2, List.mem_cons_of_mem a hf2, hmsg2,
            fun h s => by simp [gen_bridge_files, ha, herr h s]⟩
    obtain ⟨f2, msg2, hf2, hmsg2, herr⟩ := key cxxFilenames hf
    exact ⟨f2, msg2, hf2, hmsg2, by simp [gen_cxxbridge, ho, herr]⟩
  · intro tb e htb hge
    simp [main, htb, hge]
  · intro o t ho hok f hf
    have key : ∀ (l : List String) (tl : Trace) (h s : String),
        gen_bridge_files inp h s l = .ok tl →
        ∀ g ∈ l, Event.writeFile (h ++ "/" ++ g ++ ".h") ∈ tl ∧
          Event.writeFile (s ++ "/" ++ g ++ ".cpp") ∈ tl := by
      intro l
      induction l with
      | nil => intro tl h s htl g hg; cases hg
      | cons a rest ih =>
        intro tl h s htl g hg
        cases ha : inp.cxxGenErr a with
        | some m => simp [gen_bridge_files, ha] at htl
        | none =>
          cases hrest : gen_bridge_files inp h s rest with
          | error e2 => simp [gen_bridge_files, ha, hrest] at htl
          | ok tr =>
            simp only [gen_bridge_files, ha, hrest] at htl
            injection htl with heq
            subst heq
            rcases List.mem_cons.mp hg with rfl | hgr
            · simp
            · have := ih tr h s hrest g hgr
              simp only [List.cons_append, List.nil_append, List.mem_cons]
              exact ⟨Or.inr (Or.inr (Or.inr this.1)),
                Or.inr (Or.inr (Or.inr this.2))⟩
    cases hbr : gen_bridge_files inp (o ++ "/gen/include/rust") (o ++ "/gen/src")
        cxxFilenames with
    | error e2 => simp [gen_cxxbridge, ho, hbr] at hok
    | ok tr =>
      have hmem := key cxxFilenames tr _ _ hbr f hf
      simp only [gen_cxxbridge, ho, hbr] at hok
      injection hok with heq
      subst heq
      simp only [List.cons_append, List.nil_append, List.mem_cons]
      exact ⟨Or.inr (Or.inr (Or.inr hmem.1)),
        Or.inr (Or.inr (Or.inr hmem.2))⟩

/-- Witness for C7: the three fatal paths and the no-skip property at
concrete inputs. -/
theorem C7_generation_failures_fatal_witness :
    (main { sampleInput with bindgenOk := false } =
      .error "unable to generate bindings: try running 'git submodule init' and 'git submodule update'") ∧
    (∃ f2 msg2, f2 ∈ cxxFilenames ∧ bridgeFailInput.cxxGenErr f2 = some msg2 ∧
      gen_cxxbridge bridgeFailInput = .error (bridgeErrMsg f2 msg2)) ∧
    (main bridgeFailInput = .error (bridgeErrMsg "bridge" "boom")) ∧
    (Event.writeFile (("out" ++ "/gen/include/rust") ++ "/" ++ "sapling/zip32" ++ ".h") ∈
      ([Event.createDirAll ("out" ++ "/gen/src"),
        Event.createDirAll ("out" ++ "/gen/include/rust"),
        Event.writeFile ("out" ++ "/gen/include/rust" ++ "/cxx.h")] ++
        bridgeTraceOf ("out" ++ "/gen/include/rust") ("out" ++ "/gen/src") cxxFilenames)) := by
  refine ⟨?_, ?_, ?_, ?_⟩
  · exact (C7_generation_failures_fatal { sampleInput with bindgenOk := false }).1 rfl
  · exact (C7_generation_failures_fatal bridgeFailInput).2.1 "out" "bridge" "boom"
      rfl (by decide) (by decide)
  · exact (C7_generation_failures_fatal bridgeFailInput).2.2.1
      [Event.rerunIfChanged "depend/zcash/src/script/zcash_script.h",
       Event.writeFile ("out" ++ "/bindings.rs")]
      (bridgeErrMsg "bridge" "boom")
      (bindgen_headers_eq bridgeFailInput "out" rfl rfl rfl)
      (by rfl)
  · exact ((C7_generation_failures_fatal sampleInput).2.2.2 "out" _ rfl
      (gen_cxxbridge_eq sampleInput "out" rfl (fun _ => rfl))
      "sapling/zip32" (by decide)).1

/-- C8: language-standard selection is one uniform policy — the flag is
`/std:` concatenated with the tag for an MSVC-like compiler and `-std=`
concatenated with the tag otherwise, C++ mode is enabled exactly when
the tag starts with `c++`, and each of the two compilation plans carries
exactly one such flag. -/
theorem C8_language_std_policy :
    (∀ (b : CcBuild) (m : Bool) (tag : String),
      (language_std b m tag).flags =
        b.flags ++ [(if m then "/std:" else "-std=") ++ tag] ∧
      ((language_std b m tag).cpp = true ↔ ∃ r, tag = "c++" ++ r)) ∧
    (∀ m be u64, countStdFlags (secp256k1_plan m be u64).flags = 1) ∧
    (∀ m gp tgt, countStdFlags (base_plan m gp tgt).flags = 1) := by
  refine ⟨?_, ?_, ?_⟩
  · intro b m tag
    refine ⟨by cases m <;> simp [language_std], ?_⟩
    simpa [language_std] using strStarts_iff tag "c++"
  · intro m be u64
    cases m <;> cases be <;> cases u64 <;> decide
  · intro m gp tgt
    have hf : (base_plan m gp tgt).flags = [(if m then "/std:" else "-std=") ++ "c++17"] := by
      simp [base_plan, base_config, language_std, ccNew, apply_ite CcBuild.flags]
    rw [hf]
    cases m <;> decide

/-- Witness for C8: a non-MSVC C99 plan and the MSVC main plan each
carry exactly one language-standard flag, and C++ mode reflects the tag. -/
theorem C8_language_std_policy_witness :
    countStdFlags (secp256k1_plan false false true).flags = 1 ∧
    countStdFlags (base_plan true "g" "windows-msvc").flags = 1 ∧
    ((language_std ccNew false "c++17").cpp = true ↔ ∃ r, "c++17" = "c++" ++ r) :=
  ⟨C8_language_std_policy.2.1 false false true,
   C8_language_std_policy.2.2 true "g" "windows-msvc",
   (C8_language_std_policy.1 ccNew false "c++17").2⟩

/-- C9 counterexample: on a fully successful concrete run, the probe
events occur (the probe-event index is inside the trace) but the
External Declaration Synthesizer's rebuild trigger, the bridge/synth
file writes and the relocation copies all occur *before* the first probe
event, refuting the claim that the Prober runs before those components. -/
theorem C9_probe_order_counterexample :
    (mainTraceOf sampleInput).findIdx isProbeEvent <
      (mainTraceOf sampleInput).length ∧
    (mainTraceOf sampleInput).findIdx isSynthRerunEvent <
      (mainTraceOf sampleInput).findIdx isProbeEvent ∧
    (mainTraceOf sampleInput).findIdx isWriteEvent <
      (mainTraceOf sampleInput).findIdx isProbeEvent ∧
    (mainTraceOf sampleInput).findIdx isCopyEvent <
      (mainTraceOf sampleInput).findIdx isProbeEvent := by decide

/-- C9 as amended: on a successful vendored build, the platform
capabilities are computed exactly once (one read of each descriptor, at
most one trial compilation), no synthesizer/bridge write and no
relocation copy occurs after the first probe event (the probe runs
*after* those components, not before), and no probe event occurs at or
after the first toolchain invocation (the probe does run before the
Native Build Invoker's compilations). -/
theorem C9_probe_order_amended (inp : BuildInput) (o tg e w : String)
    (ho : inp.outDir = some o) (htg : inp.target = some tg)
    (hb : inp.bindgenOk = true) (hwb : inp.writeBindingsErr = none)
    (hg : ∀ f, inp.cxxGenErr f = none) (hx : inp.externalSecp = false)
    (he : inp.targetEndian = some e) (hw : inp.targetPointerWidth = some w) :
    ∃ t, main inp = .ok t ∧
      t.countP isEndianReadEvent = 1 ∧
      t.countP isPointerWidthReadEvent = 1 ∧
      t.countP isTrialEvent ≤ 1 ∧
      (t.dropWhile (fun ev => !isProbeEvent ev)).countP isWriteEvent = 0 ∧
      (t.dropWhile (fun ev => !isProbeEvent ev)).countP isCopyEvent = 0 ∧
      (t.dropWhile (fun ev => !isCompileEvent ev)).countP isProbeEvent = 0 := by
  refine ⟨_, main_eq_vendored inp o tg e w ho htg hb hwb hg hx he hw,
    ?_, ?_, ?_, ?_, ?_, ?_⟩ <;>
  · cases hbw : w == "64" <;> cases htr : inp.trialCompileOk <;>
      simp [fullPre, bridgeTraceOf, cxxFilenames, relocate_trace,
        relocation_rerun_paths, relocation_copies, secpTraceOf, hbw, htr,
        isEndianReadEvent, isPointerWidthReadEvent, isTrialEvent,
        isProbeEvent, isCompileEvent, isWriteEvent, isCopyEvent,
        List.countP_cons, List.countP_nil, List.dropWhile]

/-- Witness for C9's amended statement at a concrete input. -/
theorem C9_probe_order_amended_witness :
    ∃ t, main sampleInput = .ok t ∧
      t.countP isEndianReadEvent = 1 ∧
      t.countP isPointerWidthReadEvent = 1 ∧
      t.countP isTrialEvent ≤ 1 ∧
      (t.dropWhile (fun ev => !isProbeEvent ev)).countP isWriteEvent = 0 ∧
      (t.dropWhile (fun ev => !isProbeEvent ev)).countP isCopyEvent = 0 ∧
      (t.dropWhile (fun ev => !isCompileEvent ev)).countP isProbeEvent = 0 :=
  C9_probe_order_amended sampleInput "out" "x86_64-unknown-linux-gnu" "little" "64"
    rfl rfl rfl rfl (fun _ => rfl) rfl rfl rfl

/-- C10: when the `external-secp` feature is set, the probe never runs —
no descriptor read and no trial compilation appears in the trace — and
the build succeeds even with both platform descriptors absent. -/
theorem C10_external_secp_skips_probe (inp : BuildInput) (o tg : String)
    (ho : inp.outDir = some o) (htg : inp.target = some tg)
    (hb : inp.bindgenOk = true) (hwb : inp.writeBindingsErr = none)
    (hg : ∀ f, inp.cxxGenErr f = none) (hx : inp.externalSecp = true)
    (_he : inp.targetEndian = none) (_hw : inp.targetPointerWidth = none) :
    ∃ t, main inp = .ok t ∧
      t.countP isProbeEvent = 0 ∧ t.countP isTrialEvent = 0 := by
  refine ⟨_, main_eq_external inp o tg ho htg hb hwb hg hx, ?_, ?_⟩ <;>
    simp [fullPre, bridgeTraceOf, cxxFilenames, relocate_trace,
      relocation_rerun_paths, relocation_copies, isProbeEvent, isTrialEvent,
      List.countP_cons, List.countP_nil]

/-- Witness for C10: a concrete external-secp run with both descriptors
absent still succeeds, with a probe-free trace. -/
theorem C10_external_secp_skips_probe_witness :
    ∃ t, main externalNoDescInput = .ok t ∧
      t.countP isProbeEvent = 0 ∧ t.countP isTrialEvent = 0 :=
  C10_external_secp_skips_probe externalNoDescInput
    "out" "x86_64-unknown-linux-gnu" rfl rfl rfl rfl (fun _ => rfl) rfl rfl rfl

end ZcashBuild
